import Mathlib

/-!
Verification of the energy-data-combiner pipeline (src/app.py).

The development shallowly embeds the data-processing core of the
application: the two meter-file parsers (`process_energy_file`,
`process_amr_file`), the Belpex price-cell parser
(`process_belpex_file`'s Euro-column handling), the PVGIS estimator's
retry configuration and hourly-to-quarter-hour resampling
(`process_pvgis_hybrid`), the merge pipeline of the top-level button
handler, and the split-layout exporter (`to_multi_sheet_excel`).

Conventions of the embedding:
* floats are modelled as rationals (`ℚ`);
* a pandas timestamp is the `DateTime` structure below (no seconds:
  every timestamp handled by the program has zero seconds);
* AMR timestamps are absolute minute counts (`ℕ`), since that parser
  only does linear time arithmetic;
* library date parsing (`pd.to_datetime`) is abstracted as an
  `Option`-valued field on the embedded row: `none` models a cell that
  the library cannot parse at the format in question;
* missing values (`NaN`) are `Option.none`.
-/

/-- A calendar timestamp as produced by `pd.to_datetime` for this
application: year, month, day, hour, minute (seconds are always zero in
every source format handled). -/
structure DateTime where
  year : ℕ
  month : ℕ
  day : ℕ
  hour : ℕ
  minute : ℕ
deriving DecidableEq, Repr

/-- A timestamp is calendar-valid when each field is within its usual
calendar bounds.  All fields are then below 100, so the two-digit
zero-padded `strftime` renderings below are faithful. -/
def validDT (t : DateTime) : Prop :=
  1 ≤ t.month ∧ t.month ≤ 12 ∧ 1 ≤ t.day ∧ t.day ≤ 31 ∧ t.hour ≤ 23 ∧ t.minute ≤ 59

instance (t : DateTime) : Decidable (validDT t) := by unfold validDT; infer_instance

/-- Two-digit zero-padded rendering of a field value, as `strftime`
prints `%m`, `%d`, `%H`, `%M` for in-range values. -/
def fmt2 (n : ℕ) : List Char :=
  [Nat.digitChar (n / 10 % 10), Nat.digitChar (n % 10)]

/-- `Tijdstip.dt.strftime('%m-%d %H:%M')` — the year-agnostic match key
built at src/app.py lines 247–248 for the PVGIS join. -/
def matchKey (t : DateTime) : String :=
  String.mk (fmt2 t.month ++ '-' :: fmt2 t.day ++ ' ' :: fmt2 t.hour ++ ':' :: fmt2 t.minute)

/-- `Tijdstip.dt.floor('H')` — zero the minute field (seconds are already
zero in this embedding). -/
def floorHour (t : DateTime) : DateTime :=
  { t with minute := 0 }

theorem digitChar_inj_lt10 (a b : ℕ) (ha : a < 10) (hb : b < 10)
    (h : Nat.digitChar a = Nat.digitChar b) : a = b := by
  have : ∀ a' : Fin 10, ∀ b' : Fin 10,
      Nat.digitChar a' = Nat.digitChar b' → a' = b' := by decide
  have := this ⟨a, ha⟩ ⟨b, hb⟩ h
  exact congrArg Fin.val this

theorem fmt2_inj (a b : ℕ) (ha : a < 100) (hb : b < 100)
    (h : fmt2 a = fmt2 b) : a = b := by
  unfold fmt2 at h
  simp only [List.cons.injEq, and_true] at h
  obtain ⟨h1, h2⟩ := h
  have d1 : a / 10 % 10 = b / 10 % 10 :=
    digitChar_inj_lt10 _ _ (Nat.mod_lt _ (by norm_num)) (Nat.mod_lt _ (by norm_num)) h1
  have d2 : a % 10 = b % 10 :=
    digitChar_inj_lt10 _ _ (Nat.mod_lt _ (by norm_num)) (Nat.mod_lt _ (by norm_num)) h2
  have ha' : a / 10 < 10 := Nat.div_lt_of_lt_mul (by omega)
  have hb' : b / 10 < 10 := Nat.div_lt_of_lt_mul (by omega)
  rw [Nat.mod_eq_of_lt ha', Nat.mod_eq_of_lt hb'] at d1
  omega

theorem matchKey_eq_iff (a b : DateTime) (ha : validDT a) (hb : validDT b) :
    matchKey a = matchKey b ↔
      (a.month = b.month ∧ a.day = b.day ∧ a.hour = b.hour ∧ a.minute = b.minute) := by
  constructor
  · intro h
    unfold matchKey at h
    have h' := congrArg String.data h
    simp only [String.data] at h'
    unfold fmt2 at h'
    simp only [List.cons_append, List.nil_append, List.cons.injEq, and_true] at h'
    obtain ⟨m1, m2, -, d1, d2, -, h1, h2, -, n1, n2⟩ := h'
    obtain ⟨am1, am2, ad1, ad2, ah, an⟩ := ha
    obtain ⟨bm1, bm2, bd1, bd2, bh, bn⟩ := hb
    have em : a.month = b.month := fmt2_inj _ _ (by omega) (by omega) (by unfold fmt2; rw [m1, m2])
    have ed : a.day = b.day := fmt2_inj _ _ (by omega) (by omega) (by unfold fmt2; rw [d1, d2])
    have eh : a.hour = b.hour := fmt2_inj _ _ (by omega) (by omega) (by unfold fmt2; rw [h1, h2])
    have en : a.minute = b.minute := fmt2_inj _ _ (by omega) (by omega) (by unfold fmt2; rw [n1, n2])
    exact ⟨em, ed, eh, en⟩
  · rintro ⟨h1, h2, h3, h4⟩
    unfold matchKey
    rw [h1, h2, h3, h4]

/-- A canonical series: ordered `(timestamp, value)` samples, the output
shape of both meter parsers (`Tijdstip`/`Volume` columns). -/
abbrev Series : Type := List (DateTime × ℚ)

/-- Exact-timestamp lookup, modelling what a pandas `merge` on the
`Tijdstip` column contributes to one result row (first match; the
right-hand tables of the joins in app.py are produced by single parser
invocations). -/
def lookupTs (s : Series) (t : DateTime) : Option ℚ :=
  (List.find? (fun p => decide (p.1 = t)) s).map Prod.snd

/-- The value the PVGIS left join (src/app.py lines 246–249) attaches to
a row with timestamp `t`: the first PVGIS sample whose
`strftime('%m-%d %H:%M')` match key equals the row's. -/
def pvgisJoinValue (pvgis : Series) (t : DateTime) : Option ℚ :=
  (List.find? (fun p => decide (matchKey p.1 = matchKey t)) pvgis).map Prod.snd

/-- Claim C3: when a PV-estimate series is present it is joined to meter
rows by a month-day-hour-minute key that ignores the year: for an
estimate sample and a meter row, the estimate value is attached to the
row if and only if their timestamps agree on month, day, hour and
minute. -/
theorem C3_year_agnostic_match (e r : DateTime) (v : ℚ)
    (he : validDT e) (hr : validDT r) :
    pvgisJoinValue [(e, v)] r = some v ↔
      (e.month = r.month ∧ e.day = r.day ∧ e.hour = r.hour ∧ e.minute = r.minute) := by
  unfold pvgisJoinValue
  rw [← matchKey_eq_iff e r he hr]
  constructor
  · intro h
    by_contra hne
    unfold List.find? at h
    rw [decide_eq_false hne] at h
    simp at h
  · intro h
    unfold List.find?
    rw [decide_eq_true h]
    rfl

/-- Witness for C3 at the spec's own example: the estimate sample at
2020-06-15 10:15 is attached to the meter row at 2023-06-15 10:15, and
not to the row at 2023-06-16 10:15. -/
theorem C3_year_agnostic_match_witness :
    pvgisJoinValue [(⟨2020, 6, 15, 10, 15⟩, (7 : ℚ))] ⟨2023, 6, 15, 10, 15⟩ = some 7 ∧
      pvgisJoinValue [(⟨2020, 6, 15, 10, 15⟩, (7 : ℚ))] ⟨2023, 6, 16, 10, 15⟩ ≠ some 7 := by
  constructor
  · exact (C3_year_agnostic_match ⟨2020, 6, 15, 10, 15⟩ ⟨2023, 6, 15, 10, 15⟩ 7
      (by decide) (by decide)).mpr (by decide)
  · intro h
    have := (C3_year_agnostic_match ⟨2020, 6, 15, 10, 15⟩ ⟨2023, 6, 16, 10, 15⟩ 7
      (by decide) (by decide)).mp h
    simp at this

/-- Numeric value of a digit string, most significant digit first. -/
def natOfDigits (l : List Char) : ℕ :=
  l.foldl (fun a c => 10 * a + (c.toNat - 48)) 0

/-- Python/pandas numeric conversion of a dot-decimal string restricted
to the alphabet these pipelines can produce (optional leading minus,
digits, at most one dot): the semantics of `pd.to_numeric` on such a
string.  Returns `none` where the conversion would raise (or, under
`errors='coerce'`, produce `NaN`). -/
def pyFloatCore (l : List Char) : Option ℚ :=
  let d1 := l.takeWhile (fun c => c != '.')
  let rest := l.dropWhile (fun c => c != '.')
  match rest with
  | [] =>
      if d1 ≠ [] ∧ d1.all Char.isDigit then some (natOfDigits d1) else none
  | _ :: d2 =>
      if (d1 ++ d2) ≠ [] ∧ d1.all Char.isDigit ∧ d2.all Char.isDigit ∧
          d2.all (fun c => c != '.') then
        some ((natOfDigits d1 : ℚ) + (natOfDigits d2 : ℚ) / 10 ^ d2.length)
      else none

/-- `pd.to_numeric` on one string cell (sign handling on top of
`pyFloatCore`). -/
def pyFloat (s : String) : Option ℚ :=
  match s.data with
  | '-' :: rest => (pyFloatCore rest).map (fun q => -q)
  | l => pyFloatCore l

/-- `str.replace(',', '.')` — every comma becomes a dot. -/
def commaToDot (s : String) : String :=
  String.mk (s.data.map (fun c => if c = ',' then '.' else c))

/-- Numeric inference of one cell by `pd.read_csv(..., decimal=',')`:
a comma-decimal number (a dot makes the cell non-numeric, a comma plays
the role of the decimal point). -/
def commaFloat (s : String) : Option ℚ :=
  if s.data.contains '.' then none else pyFloat (commaToDot s)

/-- One character of the class `[\d,]` of the Euro-column pattern at
src/app.py line 62. -/
def isNumChar (c : Char) : Bool :=
  c.isDigit || c = ','

/-- Attempt to match the pattern `-?[\d,]+` at the head of the character
list (the regex semantics at one scan position). -/
def euroMatchAt : List Char → Option (List Char)
  | [] => none
  | c :: rest =>
      if isNumChar c then some (c :: rest.takeWhile isNumChar)
      else if c = '-' then
        match rest with
        | [] => none
        | d :: _ => if isNumChar d then some ('-' :: rest.takeWhile isNumChar) else none
      else none

/-- Leftmost match of `-?[\d,]+`, as `re.search` scans. -/
def euroScan : List Char → Option (List Char)
  | [] => none
  | c :: rest =>
      match euroMatchAt (c :: rest) with
      | some m => some m
      | none => euroScan rest

/-- `df_belpex['Euro'].str.extract(r'(-?[\d,]+)')` on one cell
(src/app.py line 62): the first signed digits-and-commas substring,
`none` (pandas `NaN`) when the cell has no match. -/
def extractEuroNumber (s : String) : Option String :=
  (euroScan s.data).map String.mk

/-- Full Euro-cell processing of `process_belpex_file`
(src/app.py lines 62–64): extract the first `-?[\d,]+` substring,
replace commas by dots, convert with `pd.to_numeric(..., errors='coerce')`,
divide by 1000.  `none` models a `NaN` cell of the `BELPEX_EUR_KWH`
column. -/
def belpexPrice (s : String) : Option ℚ :=
  ((extractEuroNumber s).bind (fun t => pyFloat (commaToDot t))).map (fun v => v / 1000)

example : extractEuroNumber "45,67 €/MWh" = some "45,67" := by decide
example : belpexPrice "45,67 €/MWh" = some (4567 / 100000) := by
  simp [belpexPrice, extractEuroNumber, euroScan, euroMatchAt, isNumChar,
    pyFloat, pyFloatCore, commaToDot, natOfDigits]
  norm_num
example : belpexPrice "n.a." = none := by decide
example : belpexPrice "€ -12,5 /MWh" = some (-(125 / 10000)) := by
  simp [belpexPrice, extractEuroNumber, euroScan, euroMatchAt, isNumChar,
    pyFloat, pyFloatCore, commaToDot, natOfDigits]
  norm_num

/-- Claim C5: for every cell of the price file's Euro column the parser
extracts the first signed decimal-with-comma substring, converts the
comma to a decimal point, parses it as a number and divides by 1000
(`"45,67 €/MWh"` yields exactly 0.04567 €/kWh); a cell with no matching
or parseable substring becomes a missing marker for that cell and does
not fail the parse. -/
theorem C5_price_parse :
    belpexPrice "45,67 €/MWh" = some (4567 / 100000) ∧
      (∀ s : String, extractEuroNumber s = none → belpexPrice s = none) ∧
      (∀ s t : String, extractEuroNumber s = some t → pyFloat (commaToDot t) = none →
        belpexPrice s = none) ∧
      (∀ s t : String, ∀ v : ℚ, extractEuroNumber s = some t →
        pyFloat (commaToDot t) = some v → belpexPrice s = some (v / 1000)) := by
  refine ⟨?_, ?_, ?_, ?_⟩
  · simp [belpexPrice, extractEuroNumber, euroScan, euroMatchAt, isNumChar,
      pyFloat, pyFloatCore, commaToDot, natOfDigits]
    norm_num
  · intro s h
    unfold belpexPrice
    rw [h]
    rfl
  · intro s t h1 h2
    unfold belpexPrice
    rw [h1]
    simp [h2]
  · intro s t v h1 h2
    unfold belpexPrice
    rw [h1]
    simp [h2]

/-- Witness for C5: the missing-marker branch applied at the concrete
unparseable cell `"n.a."`, and the extraction/parse branch applied at a
concrete matched cell. -/
theorem C5_price_parse_witness :
    belpexPrice "n.a." = none ∧ belpexPrice "0,5" = some ((1 / 2 : ℚ) / 1000) := by
  constructor
  · exact C5_price_parse.2.1 "n.a." (by decide)
  · refine C5_price_parse.2.2.2 "0,5" "0,5" (1 / 2) (by decide) ?_
    simp [pyFloat, pyFloatCore, commaToDot, natOfDigits]
    norm_num

/-- One data row of a standard ("Normale CSV") meter file.  `tijdstip`
abstracts the library call
`pd.to_datetime(df['Van (datum)'] + ' ' + df['Van (tijdstip)'], dayfirst=True)`
applied to this row: `none` models a combined date/time string that the
library cannot parse (without `errors='coerce'` any such row raises for
the whole column). -/
structure ERow where
  tijdstip : Option DateTime
  register : String
  volume : String
deriving DecidableEq, Repr

/-- A parsed standard meter CSV: its header (column names) and its data
rows. -/
structure EnergyFile where
  columns : List String
  rows : List ERow
deriving DecidableEq, Repr

/-- The columns `process_energy_file` accesses (src/app.py lines 18–22);
a file missing any of them raises a `KeyError`, caught at line 24. -/
def requiredEnergyCols : List String :=
  ["Van (datum)", "Van (tijdstip)", "Register", "Volume"]

/-- Whether `pd.read_csv(..., sep=';', decimal=',')` infers the whole
`Volume` column as numeric: every cell must be a comma-decimal number.
If any cell is not, the column is kept as strings. -/
def energyVolumeNumeric (f : EnergyFile) : Bool :=
  f.rows.all (fun r => (commaFloat r.volume).isSome)

/-- `df[df['Register'] == register_type]` — the register filter at
src/app.py line 21. -/
def energyFiltered (f : EnergyFile) (register_type : String) : List ERow :=
  f.rows.filter (fun r => decide (r.register = register_type))

/-- Placeholder timestamp; only ever read behind an `isSome` guarantee. -/
def dtDefault : DateTime := ⟨1970, 1, 1, 0, 0⟩

/-- `process_energy_file` (src/app.py lines 14–26).  Stages, in source
order: column access (missing column raises), whole-column
`pd.to_datetime` (any unparseable row raises), register filter, then
`pd.to_numeric` over the **filtered** `Volume` cells — a no-op when
`read_csv` already inferred the column numeric, and a per-cell string
conversion (raising on the first bad cell) otherwise.  Any raise is
caught and reported (`st.error`) and the function returns an empty
frame; the embedding keeps the error as `Except.error`. -/
def process_energy_file (f : EnergyFile) (register_type : String) :
    Except String (List (DateTime × ℚ)) :=
  if ¬ (requiredEnergyCols.all (fun c => f.columns.contains c)) then
    .error "missing required column"
  else if f.rows.any (fun r => r.tijdstip.isNone) then
    .error "date conversion failed"
  else if energyVolumeNumeric f then
    .ok ((energyFiltered f register_type).map
      (fun r => (r.tijdstip.getD dtDefault, (commaFloat r.volume).getD 0)))
  else if (energyFiltered f register_type).all (fun r => (pyFloat r.volume).isSome) then
    .ok ((energyFiltered f register_type).map
      (fun r => (r.tijdstip.getD dtDefault, (pyFloat r.volume).getD 0)))
  else
    .error "volume conversion failed"

/-- Counterexample to claim C8 as stated: a file containing a
non-numeric `Volume` cell (`"abc"`, in a row whose register does not
match the request) parses successfully — the whole file is **not**
failed — because the volume conversion at src/app.py line 22 runs only
on the rows left after the register filter of line 21. -/
theorem C8_counterexample :
    process_energy_file
        ⟨["Van (datum)", "Van (tijdstip)", "Register", "Volume"],
         [⟨some ⟨2023, 1, 1, 0, 0⟩, "Injectie Actief", "abc"⟩,
          ⟨some ⟨2023, 1, 1, 0, 15⟩, "Afname Actief", "5"⟩]⟩
        "Afname Actief" = .ok [(⟨2023, 1, 1, 0, 15⟩, 5)] ∧
      commaFloat "abc" = none ∧ pyFloat "abc" = none := by
  refine ⟨?_, by decide, by decide⟩
  simp [process_energy_file, requiredEnergyCols, energyVolumeNumeric, energyFiltered,
    commaFloat, commaToDot, pyFloat, pyFloatCore, natOfDigits]


/-- Claim C8, amended: standard-format parse returns exactly the rows
whose register label equals the caller-supplied target, each as one
sample whose value is a numeric reading of that row's `Volume` cell; it
fails whenever a required column is absent, whenever the date column
cannot be converted as a whole, or whenever the `Volume` cells of the
target-matching rows cannot be converted after column-level numeric
inference — a non-numeric volume cell occurring only in rows with a
different register label does not by itself fail the file. -/
theorem C8_standard_parse (f : EnergyFile) (t : String) :
    (¬ requiredEnergyCols.all (fun c => f.columns.contains c) = true →
      ∃ e, process_energy_file f t = .error e) ∧
    (f.rows.any (fun r => r.tijdstip.isNone) = true →
      ∃ e, process_energy_file f t = .error e) ∧
    (energyVolumeNumeric f = false →
      (energyFiltered f t).all (fun r => (pyFloat r.volume).isSome) = false →
      ∃ e, process_energy_file f t = .error e) ∧
    (∀ l, process_energy_file f t = .ok l →
      List.Forall₂ (fun (s : DateTime × ℚ) (r : ERow) =>
        s.1 = r.tijdstip.getD dtDefault ∧
          (commaFloat r.volume = some s.2 ∨ pyFloat r.volume = some s.2))
        l (energyFiltered f t)) := by
  refine ⟨?_, ?_, ?_, ?_⟩
  · intro h
    unfold process_energy_file
    rw [if_pos h]
    exact ⟨"missing required column", rfl⟩
  · intro h
    unfold process_energy_file
    by_cases hc : requiredEnergyCols.all (fun c => f.columns.contains c) = true
    · rw [if_neg (not_not_intro hc), if_pos h]
      exact ⟨"date conversion failed", rfl⟩
    · rw [if_pos hc]
      exact ⟨"missing required column", rfl⟩
  · intro h1 h2
    unfold process_energy_file
    by_cases hc : requiredEnergyCols.all (fun c => f.columns.contains c) = true
    · by_cases hd : f.rows.any (fun r => r.tijdstip.isNone) = true
      · rw [if_neg (not_not_intro hc), if_pos hd]
        exact ⟨"date conversion failed", rfl⟩
      · rw [if_neg (not_not_intro hc), if_neg hd,
          if_neg (by rw [h1]; exact Bool.false_ne_true),
          if_neg (by rw [h2]; exact Bool.false_ne_true)]
        exact ⟨"volume conversion failed", rfl⟩
    · rw [if_pos hc]
      exact ⟨"missing required column", rfl⟩
  · intro l hl
    unfold process_energy_file at hl
    split at hl
    · exact absurd hl (by simp)
    · split at hl
      · exact absurd hl (by simp)
      · split at hl
        · rename_i hn
          obtain rfl := Except.ok.inj hl
          rw [List.forall₂_map_left_iff, List.forall₂_same]
          intro r hr
          refine ⟨rfl, Or.inl ?_⟩
          have hmem : r ∈ f.rows := List.mem_of_mem_filter hr
          have hsome := List.all_eq_true.mp hn r hmem
          obtain ⟨v, hv⟩ := Option.isSome_iff_exists.mp (by simpa using hsome)
          rw [hv]
          simp
        · split at hl
          · rename_i hp
            obtain rfl := Except.ok.inj hl
            rw [List.forall₂_map_left_iff, List.forall₂_same]
            intro r hr
            refine ⟨rfl, Or.inr ?_⟩
            have hsome := List.all_eq_true.mp hp r hr
            obtain ⟨v, hv⟩ := Option.isSome_iff_exists.mp (by simpa using hsome)
            rw [hv]
            simp
          · exact absurd hl (by simp)

/-- Witness for C8 at a concrete two-row file (registers
`"Injectie Actief"` and `"Afname Actief"`, request `"Afname Actief"`):
parsing succeeds and the output corresponds one-to-one to the single
matching row. -/
theorem C8_standard_parse_witness :
    List.Forall₂ (fun (s : DateTime × ℚ) (r : ERow) =>
        s.1 = r.tijdstip.getD dtDefault ∧
          (commaFloat r.volume = some s.2 ∨ pyFloat r.volume = some s.2))
      [(⟨2023, 1, 1, 0, 15⟩, 3 / 2)]
      (energyFiltered
        ⟨["Van (datum)", "Van (tijdstip)", "Register", "Volume"],
         [⟨some ⟨2023, 1, 1, 0, 0⟩, "Injectie Actief", "2,5"⟩,
          ⟨some ⟨2023, 1, 1, 0, 15⟩, "Afname Actief", "1,5"⟩]⟩ "Afname Actief") := by
  refine (C8_standard_parse
      ⟨["Van (datum)", "Van (tijdstip)", "Register", "Volume"],
       [⟨some ⟨2023, 1, 1, 0, 0⟩, "Injectie Actief", "2,5"⟩,
        ⟨some ⟨2023, 1, 1, 0, 15⟩, "Afname Actief", "1,5"⟩]⟩ "Afname Actief").2.2.2
    [(⟨2023, 1, 1, 0, 15⟩, 3 / 2)] ?_
  simp [process_energy_file, requiredEnergyCols, energyVolumeNumeric, energyFiltered,
    commaFloat, commaToDot, pyFloat, pyFloatCore, natOfDigits]
  norm_num

/-- Counterexample to claim C4 as stated: a file with two retained rows
carrying the same timestamp parses successfully — no error is reported —
and the returned series contains the duplicated timestamp twice. -/
theorem C4_counterexample :
    process_energy_file
        ⟨["Van (datum)", "Van (tijdstip)", "Register", "Volume"],
         [⟨some ⟨2023, 5, 5, 10, 0⟩, "Afname Actief", "1"⟩,
          ⟨some ⟨2023, 5, 5, 10, 0⟩, "Afname Actief", "2"⟩]⟩
        "Afname Actief" =
      .ok [(⟨2023, 5, 5, 10, 0⟩, 1), (⟨2023, 5, 5, 10, 0⟩, 2)] ∧
    ¬ List.Nodup (List.map Prod.fst
        [((⟨2023, 5, 5, 10, 0⟩ : DateTime), (1 : ℚ)), (⟨2023, 5, 5, 10, 0⟩, 2)]) := by
  constructor
  · simp [process_energy_file, requiredEnergyCols, energyVolumeNumeric, energyFiltered,
      commaFloat, commaToDot, pyFloat, pyFloatCore, natOfDigits]
  · decide

/-- Claim C4, amended: neither meter parser checks timestamp uniqueness;
for the standard parser, every successful parse returns one sample per
retained row with that row's timestamp verbatim, so duplicate timestamps
in the source are passed through silently rather than reported as a
parse error. -/
theorem C4_duplicates_passed_through (f : EnergyFile) (t : String)
    (l : List (DateTime × ℚ)) (h : process_energy_file f t = .ok l) :
    l.map Prod.fst = (energyFiltered f t).map (fun r => r.tijdstip.getD dtDefault) := by
  unfold process_energy_file at h
  split at h
  · exact absurd h (by simp)
  · split at h
    · exact absurd h (by simp)
    · split at h
      · obtain rfl := Except.ok.inj h
        rw [List.map_map]
        rfl
      · split at h
        · obtain rfl := Except.ok.inj h
          rw [List.map_map]
          rfl
        · exact absurd h (by simp)

/-- Witness for C4 at the duplicated-timestamp file: the output
timestamps are exactly the two (equal) row timestamps. -/
theorem C4_duplicates_passed_through_witness :
    List.map Prod.fst [((⟨2023, 5, 5, 10, 0⟩ : DateTime), (1 : ℚ)), (⟨2023, 5, 5, 10, 0⟩, 2)] =
      (energyFiltered
        ⟨["Van (datum)", "Van (tijdstip)", "Register", "Volume"],
         [⟨some ⟨2023, 5, 5, 10, 0⟩, "Afname Actief", "1"⟩,
          ⟨some ⟨2023, 5, 5, 10, 0⟩, "Afname Actief", "2"⟩]⟩ "Afname Actief").map
        (fun r => r.tijdstip.getD dtDefault) := by
  refine C4_duplicates_passed_through
      ⟨["Van (datum)", "Van (tijdstip)", "Register", "Volume"],
       [⟨some ⟨2023, 5, 5, 10, 0⟩, "Afname Actief", "1"⟩,
        ⟨some ⟨2023, 5, 5, 10, 0⟩, "Afname Actief", "2"⟩]⟩ "Afname Actief" _ ?_
  simp [process_energy_file, requiredEnergyCols, energyVolumeNumeric, energyFiltered,
    commaFloat, commaToDot, pyFloat, pyFloatCore, natOfDigits]

/-- One data row of an AMR file (after the 4 skipped header lines).
`field1` abstracts `pd.to_datetime(col 0, format='%d%m%Y %H:%M',
errors='coerce')` on the row's first field, as an absolute minute count
(`none` models `NaT`, an unparseable first field); `indicator` is the
8th field (column index 7); `values` holds the 96 value columns
(file columns 10–105, i.e. fields 11–106) as strings. -/
structure ARow where
  field1 : Option ℕ
  indicator : String
  values : List String
deriving DecidableEq, Repr

/-- Outcome channel of `process_amr_file`: `ok` (no message) or the
`st.warning` at src/app.py line 34 for a file with no `KWT` rows. -/
inductive AmrStatus where
  | ok : AmrStatus
  | warnNoKWT : AmrStatus
deriving DecidableEq, Repr

/-- Result of `process_amr_file`: its reporting status plus the returned
`(Tijdstip, Volume)` samples (timestamps in absolute minutes). -/
structure AmrResult where
  status : AmrStatus
  samples : List (ℕ × ℚ)
deriving DecidableEq, Repr

/-- `value_cols = list(range(10, 10 + 96))` (src/app.py line 40): the
melt's value-column labels. -/
def valueCols : List ℕ := List.range' 10 96

/-- Per-cell volume conversion of the AMR parser (src/app.py line 46):
`pd.to_numeric(... .str.replace(',', '.'), errors='coerce').fillna(0)`. -/
def amrVolume (s : String) : ℚ :=
  (pyFloat (commaToDot s)).getD 0

/-- The melt + offset computation of src/app.py lines 43–49: `pd.melt`
stacks the value columns one after another (all rows of column 10, then
all rows of column 11, …); each sample's timestamp is the row's
`start_datetime` plus `(interval_index - 10 + 1) * 15` minutes where
`interval_index` is the original column label. -/
def amrMelt (rows : List ARow) : List (ℕ × ℚ) :=
  valueCols.flatMap (fun c =>
    rows.map (fun r =>
      (r.field1.getD 0 + (c - 10 + 1) * 15, amrVolume (r.values.getD (c - 10) ""))))

/-- `process_amr_file` (src/app.py lines 28–54): keep rows whose 8th
field is `KWT` (warn and return empty when none), silently drop retained
rows whose first field did not parse (`errors='coerce'` + `dropna`),
melt the 96 value columns of the remaining rows. -/
def process_amr_file (rows : List ARow) : AmrResult :=
  if (rows.filter (fun r => decide (r.indicator = "KWT"))).isEmpty then
    ⟨.warnNoKWT, []⟩
  else
    ⟨.ok, amrMelt ((rows.filter (fun r => decide (r.indicator = "KWT"))).filter
      (fun r => r.field1.isSome))⟩

theorem flatMap_map_single {α β : Type} (l : List α) (f : α → β) :
    (l.flatMap (fun x => [f x])) = l.map f := by
  induction l with
  | nil => rfl
  | cons a l ih => simp [List.flatMap_cons, ih]

theorem amrMelt_length (rows : List ARow) :
    (amrMelt rows).length = 96 * rows.length := by
  unfold amrMelt
  rw [List.length_flatMap]
  simp [Function.comp_def, List.map_const', List.sum_replicate, valueCols]
  omega

/-- Claim C2: for every retained AMR row (indicator `KWT`, parseable
day-start timestamp `t0`), the sample produced from value-column index
`i` (for `i` in 0..95, file columns 10..105) carries the timestamp
`t0 + (i+1)*15` minutes — in particular index 0 yields `t0 + 15` and
index 95 yields `t0 + 1440`, i.e. 24 hours after day start. -/
theorem C2_amr_interval_offsets (r : ARow) (t0 : ℕ)
    (h1 : r.field1 = some t0) (h2 : r.indicator = "KWT") :
    ∀ i, i < 96 →
      ((process_amr_file [r]).samples[i]?).map Prod.fst = some (t0 + (i + 1) * 15) := by
  intro i hi
  unfold process_amr_file
  rw [if_neg (by simp [List.filter, decide_eq_true h2])]
  have hgood : ([r].filter (fun r => decide (r.indicator = "KWT"))).filter
      (fun r => r.field1.isSome) = [r] := by
    simp [List.filter, decide_eq_true h2, h1]
  rw [hgood]
  have hmelt : amrMelt [r] =
      valueCols.map (fun c =>
        (r.field1.getD 0 + (c - 10 + 1) * 15, amrVolume (r.values.getD (c - 10) ""))) := by
    unfold amrMelt
    exact flatMap_map_single _ _
  rw [hmelt]
  rw [List.getElem?_map, valueCols, List.getElem?_range' _ _ hi]
  simp [h1]

/-- Witness for C2 at a concrete KWT row with day start `t0 = 0`
minutes: value-column index 0 maps to minute 15 and index 95 to minute
1440 (= 24:00, the next day boundary). -/
theorem C2_amr_interval_offsets_witness :
    ((process_amr_file [⟨some 0, "KWT", []⟩]).samples[0]?).map Prod.fst = some 15 ∧
      ((process_amr_file [⟨some 0, "KWT", []⟩]).samples[95]?).map Prod.fst = some 1440 := by
  constructor
  · simpa using C2_amr_interval_offsets ⟨some 0, "KWT", []⟩ 0 rfl rfl 0 (by norm_num)
  · simpa using C2_amr_interval_offsets ⟨some 0, "KWT", []⟩ 0 rfl rfl 95 (by norm_num)

/-- Claim C10: once at least one `KWT` row exists, a retained row whose
first field does not parse as `ddMMyyyy HH:mm` is silently dropped — the
status is plain success (no warning, no error) — while every remaining
row still contributes its 96 samples. -/
theorem C10_amr_bad_date_dropped (rows : List ARow)
    (h : (rows.filter (fun r => decide (r.indicator = "KWT"))).isEmpty = false) :
    (process_amr_file rows).status = .ok ∧
      (process_amr_file rows).samples.length =
        96 * ((rows.filter (fun r => decide (r.indicator = "KWT"))).filter
          (fun r => r.field1.isSome)).length := by
  unfold process_amr_file
  rw [if_neg (by simp [h])]
  exact ⟨rfl, amrMelt_length _⟩

/-- Witness for C10: a file with one unparseable-date `KWT` row and one
good `KWT` row processes with status ok and exactly the good row's 96
samples. -/
theorem C10_amr_bad_date_dropped_witness :
    (process_amr_file [⟨none, "KWT", []⟩, ⟨some 1440, "KWT", []⟩]).status = .ok ∧
      (process_amr_file [⟨none, "KWT", []⟩, ⟨some 1440, "KWT", []⟩]).samples.length =
        96 * (([(⟨none, "KWT", []⟩ : ARow), ⟨some 1440, "KWT", []⟩].filter
          (fun r => decide (r.indicator = "KWT"))).filter (fun r => r.field1.isSome)).length :=
  C10_amr_bad_date_dropped [⟨none, "KWT", []⟩, ⟨some 1440, "KWT", []⟩] (by decide)

/-- Retry configuration of the TMY weather fetch:
`Retry(total=..., backoff_factor=..., status_forcelist=[...])`
(src/app.py line 82). -/
structure RetryPolicy where
  total : ℕ
  backoff_factor : ℚ
  status_forcelist : List ℕ
deriving DecidableEq, Repr

/-- The concrete policy constructed at src/app.py line 82. -/
def pvgisRetryPolicy : RetryPolicy :=
  ⟨3, 1 / 2, [500, 502, 503, 504]⟩

/-- `session.get(tmy_api_url, timeout=30)` (src/app.py line 85): the
fixed request timeout in seconds. -/
def pvgisTimeoutSeconds : ℕ := 30

/-- Whether the mounted retry adapter retries a response with the given
HTTP status: membership in the policy's `status_forcelist`. -/
def retriesOn (p : RetryPolicy) (status : ℕ) : Bool :=
  p.status_forcelist.contains status

/-- urllib3 sleep before the `n`-th automatic retry (`n ≥ 1`):
`backoff_factor * 2 ** (n - 1)` seconds. -/
def backoffTime (p : RetryPolicy) (n : ℕ) : ℚ :=
  p.backoff_factor * 2 ^ (n - 1)

/-- `total_ac_power` accumulation over the TMY weather index of `n`
hours (src/app.py lines 99–110): start from the all-zero hourly series
and add each segment's simulated hourly AC power pointwise. -/
def totalACPower (n : ℕ) (segs : List (List ℚ)) : List ℚ :=
  segs.foldl (fun acc s => List.zipWith (· + ·) acc s) (List.replicate n 0)

/-- Forward-fill lookup: the last sample in list order whose timestamp
is ≤ `t` (pandas `ffill` on a sorted index). -/
def ffillLookup : List (ℕ × ℚ) → ℕ → Option ℚ
  | [], _ => none
  | (ts, x) :: rest, t =>
      if ts ≤ t then
        match ffillLookup rest t with
        | some y => some y
        | none => some x
      else ffillLookup rest t

/-- The hourly kWh frame `df_resampled` before resampling: the TMY index
is hourly, so sample `i` sits at absolute minute `t0 + 60*i`. -/
def hourlySeries (t0 : ℕ) (v : List ℚ) : List (ℕ × ℚ) :=
  (List.range v.length).map (fun i => (t0 + 60 * i, v.getD i 0))

/-- `df_resampled.resample('15min').ffill() / 4` (src/app.py line 118):
pandas resampling spans from the first to the last index timestamp
inclusive, at 15-minute steps; each grid point takes the most recent
hourly value (forward fill) and the whole frame is divided by 4. -/
def resample15ffillDiv4 (t0 : ℕ) (v : List ℚ) : List (ℕ × ℚ) :=
  if v.isEmpty then []
  else
    (List.range (4 * (v.length - 1) + 1)).map
      (fun j => (t0 + 15 * j, ((ffillLookup (hourlySeries t0 v) (t0 + 15 * j)).getD 0) / 4))

/-- `process_pvgis_hybrid` (src/app.py lines 74–121), taking the
per-segment hourly AC power series (watts) that the deterministic pvlib
simulation produces from the fetched weather data: an empty segment list
returns an empty frame (line 75); a failed fetch — after the retry
policy is exhausted — returns an empty frame (lines 90–95); otherwise
the summed power is divided by 1000 (watts → kWh) and resampled to
15-minute resolution. -/
def process_pvgis_hybrid (segs : List (List ℚ)) (t0 n : ℕ)
    (fetch : Except String Unit) : List (ℕ × ℚ) :=
  if segs.isEmpty then []
  else
    match fetch with
    | .error _ => []
    | .ok _ => resample15ffillDiv4 t0 ((totalACPower n segs).map (fun w => w / 1000))

/-- Sum of the resampled values whose timestamps fall inside hour `i` of
the simulation, the window `[t0 + 60*i, t0 + 60*(i+1))`. -/
def hourWindowSum (out : List (ℕ × ℚ)) (t0 i : ℕ) : ℚ :=
  ((out.filter (fun p => decide (t0 + 60 * i ≤ p.1 ∧ p.1 < t0 + 60 * (i + 1)))).map
    Prod.snd).sum

/-- Claim C7: the PV estimator's single remote weather fetch uses a
fixed 30-second timeout and a bounded automatic retry of total 3 with
exponential backoff starting at 0.5 s, retried only on the server-side
statuses 500, 502, 503, 504; if the fetch still fails after exhausting
the retries, the whole estimate fails and an empty series is returned —
never a partial result. -/
theorem C7_retry_policy :
    pvgisTimeoutSeconds = 30 ∧
      pvgisRetryPolicy.total = 3 ∧
      (∀ s : ℕ, retriesOn pvgisRetryPolicy s = true ↔
        (s = 500 ∨ s = 502 ∨ s = 503 ∨ s = 504)) ∧
      backoffTime pvgisRetryPolicy 1 = 1 / 2 ∧
      (∀ k : ℕ, 1 ≤ k →
        backoffTime pvgisRetryPolicy (k + 1) = 2 * backoffTime pvgisRetryPolicy k) ∧
      (∀ (segs : List (List ℚ)) (t0 n : ℕ) (e : String),
        process_pvgis_hybrid segs t0 n (.error e) = []) := by
  refine ⟨rfl, rfl, ?_, ?_, ?_, ?_⟩
  · intro s
    simp [retriesOn, pvgisRetryPolicy]
  · norm_num [backoffTime, pvgisRetryPolicy]
  · intro k hk
    unfold backoffTime
    have h2 : k - 1 + 1 = k := by omega
    calc pvgisRetryPolicy.backoff_factor * 2 ^ (k + 1 - 1)
        = pvgisRetryPolicy.backoff_factor * (2 ^ (k - 1) * 2) := by
          rw [← pow_succ, h2]
          norm_num
      _ = 2 * (pvgisRetryPolicy.backoff_factor * 2 ^ (k - 1)) := by ring
  · intro segs t0 n e
    unfold process_pvgis_hybrid
    by_cases h : segs.isEmpty <;> simp [h]

/-- Witness for C7: the status-forcelist membership applied at 502 and
at 501, the backoff doubling applied at the first retry, and the
empty-on-error behaviour applied to a concrete one-segment input. -/
theorem C7_retry_policy_witness :
    retriesOn pvgisRetryPolicy 502 = true ∧
      retriesOn pvgisRetryPolicy 501 ≠ true ∧
      backoffTime pvgisRetryPolicy 2 = 2 * backoffTime pvgisRetryPolicy 1 ∧
      process_pvgis_hybrid [[1000]] 0 1 (.error "timeout") = [] := by
  refine ⟨?_, ?_, ?_, ?_⟩
  · exact (C7_retry_policy.2.2.1 502).mpr (by norm_num)
  · intro h
    have := (C7_retry_policy.2.2.1 501).mp h
    norm_num at this
  · exact C7_retry_policy.2.2.2.2.1 1 (by norm_num)
  · exact C7_retry_policy.2.2.2.2.2 [[1000]] 0 1 "timeout"

theorem hourlySeries_cons (t0 : ℕ) (x : ℚ) (xs : List ℚ) :
    hourlySeries t0 (x :: xs) = (t0, x) :: hourlySeries (t0 + 60) xs := by
  unfold hourlySeries
  rw [List.length_cons, List.range_succ_eq_map, List.map_cons, List.map_map]
  refine congrArg₂ List.cons (by simp) ?_
  apply List.map_congr_left
  intro i hi
  simp only [Function.comp_apply, List.getD_cons_succ]
  have h60 : t0 + 60 * (i + 1) = t0 + 60 + 60 * i := by omega
  rw [h60]

theorem ffill_none_of_lt (l : List (ℕ × ℚ)) (t : ℕ) (h : ∀ p ∈ l, t < p.1) :
    ffillLookup l t = none := by
  induction l with
  | nil => rfl
  | cons a l ih =>
    obtain ⟨ts, x⟩ := a
    unfold ffillLookup
    rw [if_neg (by have := h (ts, x) (List.mem_cons_self _ _); omega)]
    exact ih (fun p hp => h p (List.mem_cons_of_mem _ hp))

theorem ffill_hourly (v : List ℚ) (t0 i r : ℕ) (hi : i < v.length) (hr : r < 60) :
    ffillLookup (hourlySeries t0 v) (t0 + 60 * i + r) = some (v.getD i 0) := by
  induction v generalizing t0 i with
  | nil => simp at hi
  | cons x xs ih =>
    rw [hourlySeries_cons]
    unfold ffillLookup
    rw [if_pos (by omega)]
    cases i with
    | zero =>
      have hnone : ffillLookup (hourlySeries (t0 + 60) xs) (t0 + 60 * 0 + r) = none := by
        apply ffill_none_of_lt
        intro p hp
        unfold hourlySeries at hp
        simp only [List.mem_map, List.mem_range] at hp
        obtain ⟨j, hj, rfl⟩ := hp
        simp
        omega
      rw [hnone]
      simp
    | succ j =>
      have ht : t0 + 60 * (j + 1) + r = (t0 + 60) + 60 * j + r := by omega
      rw [ht, ih (t0 + 60) j (by simpa using Nat.lt_of_succ_lt_succ hi)]
      simp

theorem filter_range_ge (a N : ℕ) :
    (List.range N).filter (fun j => decide (a ≤ j)) = List.range' a (N - a) := by
  induction N with
  | zero => simp
  | succ N ih =>
    rw [List.range_succ, List.filter_append, ih]
    by_cases h : a ≤ N
    · rw [show N + 1 - a = (N - a) + 1 by omega, List.range'_1_concat]
      simp [decide_eq_true h, show a + (N - a) = N by omega]
    · rw [show N + 1 - a = 0 by omega, show N - a = 0 by omega]
      simp [h]

theorem filter_range_lt (b N : ℕ) (hb : b ≤ N) :
    (List.range N).filter (fun j => decide (j < b)) = List.range b := by
  induction N with
  | zero =>
    have : b = 0 := by omega
    simp [this]
  | succ N ih =>
    by_cases h : b ≤ N
    · rw [List.range_succ, List.filter_append, ih h]
      simp [show ¬ (N < b) by omega]
    · have hbe : b = N + 1 := by omega
      subst hbe
      rw [List.range_succ, List.filter_append]
      have h1 : (List.range N).filter (fun j => decide (j < N + 1)) = List.range N := by
        apply List.filter_eq_self.mpr
        intro j hj
        simp only [List.mem_range] at hj
        simp
        omega
      rw [h1]
      simp [List.range_succ]

theorem filter_range_interval (a b N : ℕ) (hb : b ≤ N) :
    (List.range N).filter (fun j => decide (a ≤ j ∧ j < b)) = List.range' a (b - a) := by
  have hsplit : (fun j => decide (a ≤ j ∧ j < b)) =
      fun j => decide (a ≤ j) && decide (j < b) := by
    funext j
    simp [Bool.decide_and]
  rw [hsplit, ← List.filter_filter, filter_range_lt b N hb, filter_range_ge a b]

theorem foldl_zipWith_length (segs : List (List ℚ)) (n : ℕ) (h : ∀ s ∈ segs, s.length = n) :
    ∀ acc : List ℚ, acc.length = n →
      (segs.foldl (fun acc s => List.zipWith (· + ·) acc s) acc).length = n := by
  induction segs with
  | nil =>
    intro acc ha
    simpa using ha
  | cons s ss ih =>
    intro acc ha
    rw [List.foldl_cons]
    refine ih (fun x hx => h x (List.mem_cons_of_mem _ hx)) _ ?_
    rw [List.length_zipWith, ha, h s (List.mem_cons_self _ _)]
    omega

theorem totalACPower_length (n : ℕ) (segs : List (List ℚ)) (h : ∀ s ∈ segs, s.length = n) :
    (totalACPower n segs).length = n := by
  unfold totalACPower
  exact foldl_zipWith_length segs n h _ (by simp)

theorem resample_get (t0 : ℕ) (v : List ℚ) (j : ℕ)
    (hj : j < 4 * (v.length - 1) + 1) (hv : v ≠ []) :
    (resample15ffillDiv4 t0 v)[j]? =
      some (t0 + 15 * j, ((ffillLookup (hourlySeries t0 v) (t0 + 15 * j)).getD 0) / 4) := by
  unfold resample15ffillDiv4
  rw [if_neg (by simpa using hv)]
  rw [List.getElem?_map, List.getElem?_range hj]
  rfl

/-- Claim C6, amended: the summed per-segment AC power series (watts,
hourly) is divided by 1000, and every hourly value **except the last**
is distributed evenly across the four 15-minute sub-intervals of its
hour, each receiving exactly hourly_kWh / 4, so those four samples sum
to that hour's kWh; the final hourly value yields only the single
sub-interval sample at the hour start (value hourly_kWh / 4), because
the 15-minute resampling grid ends at the last hourly timestamp. -/
theorem C6_hourly_distribution (segs : List (List ℚ)) (t0 n i : ℕ)
    (hlen : ∀ s ∈ segs, s.length = n) (hne : segs ≠ []) (hi : i + 1 < n) :
    (∀ r, r < 4 →
      (process_pvgis_hybrid segs t0 n (.ok ()))[4 * i + r]? =
        some (t0 + 15 * (4 * i + r),
          (((totalACPower n segs).map (fun w => w / 1000)).getD i 0) / 4)) ∧
      hourWindowSum (process_pvgis_hybrid segs t0 n (.ok ())) t0 i =
        ((totalACPower n segs).map (fun w => w / 1000)).getD i 0 := by
  have hvlen : ((totalACPower n segs).map (fun w => w / 1000)).length = n := by
    rw [List.length_map, totalACPower_length n segs hlen]
  set v := (totalACPower n segs).map (fun w => w / 1000) with hv
  have hvne : v ≠ [] := by
    intro h
    rw [h] at hvlen
    simp at hvlen
    omega
  have hproc : process_pvgis_hybrid segs t0 n (.ok ()) = resample15ffillDiv4 t0 v := by
    unfold process_pvgis_hybrid
    rw [if_neg (by simpa using hne)]
  have hval : ∀ r, r < 4 →
      ffillLookup (hourlySeries t0 v) (t0 + 15 * (4 * i + r)) = some (v.getD i 0) := by
    intro r hr
    have ht : t0 + 15 * (4 * i + r) = t0 + 60 * i + 15 * r := by ring
    rw [ht]
    exact ffill_hourly v t0 i (15 * r) (by omega) (by omega)
  constructor
  · intro r hr
    rw [hproc, resample_get t0 v (4 * i + r) (by omega) hvne, hval r hr]
    simp
  · rw [hproc]
    unfold hourWindowSum resample15ffillDiv4
    rw [if_neg (by simpa using hvne)]
    rw [List.filter_map]
    have hcong : (List.range (4 * (v.length - 1) + 1)).filter
        ((fun p : ℕ × ℚ => decide (t0 + 60 * i ≤ p.1 ∧ p.1 < t0 + 60 * (i + 1))) ∘
          (fun j => (t0 + 15 * j,
            ((ffillLookup (hourlySeries t0 v) (t0 + 15 * j)).getD 0) / 4))) =
        (List.range (4 * (v.length - 1) + 1)).filter
          (fun j => decide (4 * i ≤ j ∧ j < 4 * (i + 1))) := by
      apply List.filter_congr
      intro j hj
      simp only [Function.comp_apply]
      rw [decide_eq_decide]
      omega
    rw [hcong, filter_range_interval (4 * i) (4 * (i + 1)) _ (by omega),
      show 4 * (i + 1) - 4 * i = 4 by omega]
    have hr4 : List.range' (4 * i) 4 = [4 * i, 4 * i + 1, 4 * i + 2, 4 * i + 3] := by
      norm_num [List.range']
    rw [hr4]
    simp only [List.map_cons, List.map_nil, List.sum_cons, List.sum_nil]
    have e0 := hval 0 (by norm_num)
    have e1 := hval 1 (by norm_num)
    have e2 := hval 2 (by norm_num)
    have e3 := hval 3 (by norm_num)
    simp only [Nat.add_zero] at e0
    rw [e0, e1, e2, e3]
    simp only [Option.getD_some]
    ring

/-- Counterexample to claim C6 as stated: with hourly watt values
[1000, 2000] the second (last) hour's kWh is 2, but the resampled
output contains only one sample inside that hour, summing to 1/2 — not
every hour of the simulation has four 15-minute samples summing to its
kWh. -/
theorem C6_counterexample :
    ((totalACPower 2 [[1000, 2000]]).map (fun w => w / 1000)).getD 1 0 = 2 ∧
      hourWindowSum (process_pvgis_hybrid [[1000, 2000]] 0 2 (.ok ())) 0 1 = 1 / 2 ∧
      (1 / 2 : ℚ) ≠ 2 := by
  refine ⟨?_, ?_, by norm_num⟩
  · simp [totalACPower]
    norm_num
  · simp [process_pvgis_hybrid, resample15ffillDiv4, hourlySeries, ffillLookup,
      totalACPower, hourWindowSum, List.range_succ, List.range']
    norm_num [ffillLookup]

/-- Witness for C6 at a concrete three-hour simulation: hour 0's four
15-minute samples sum to hour 0's kWh. -/
theorem C6_hourly_distribution_witness :
    hourWindowSum (process_pvgis_hybrid [[1000, 2000, 3000]] 0 3 (.ok ())) 0 0 =
      ((totalACPower 3 [[1000, 2000, 3000]]).map (fun w => w / 1000)).getD 0 0 :=
  (C6_hourly_distribution [[1000, 2000, 3000]] 0 3 0
    (by intro s hs; simp only [List.mem_singleton] at hs; subst hs; rfl)
    (by simp) (by norm_num)).2

/-- A row of the unified table built by the merge pipeline (src/app.py
lines 220–252).  Every quantity cell is `Option ℚ`: `none` models a
`NaN` cell or a column that does not exist at that stage of the
pipeline; after the defaulting of lines 232–234 the four meter/price
cells are all `some`; `PVGIS_kwh` stays `none` in every row exactly when
the PVGIS column is never created (lines 246–250 skipped). -/
structure URow where
  date : DateTime
  import_kwh : Option ℚ
  injection_kwh : Option ℚ
  pv_kwh : Option ℚ
  BELPEX : Option ℚ
  PVGIS_kwh : Option ℚ
deriving DecidableEq, Repr

/-- The distinct timestamps, in first-seen order, produced by the
iterated outer merge on `Tijdstip` (src/app.py lines 220–222): one row
per distinct timestamp present in any included meter series. -/
def outerTimestamps (dfs : List Series) : List DateTime :=
  (dfs.flatMap (fun s => s.map Prod.fst)).dedup

/-- Lines 212–222: collect the non-empty meter series (tagged
`import_kwh`, `injection_kwh`, `pv_kwh` by the renames of lines
213–215) and outer merge them on exact timestamp equality; the quantity
column of an absent or empty series does not exist yet, and a present
column is `NaN` where its series has no sample at the row's
timestamp — both are `none` here. -/
def mergeStep (imp inj pv : Series) : List URow :=
  (outerTimestamps ((if imp.isEmpty then [] else [imp]) ++
      (if inj.isEmpty then [] else [inj]) ++
      (if pv.isEmpty then [] else [pv]))).map
    (fun t =>
      { date := t
        import_kwh := lookupTs imp t
        injection_kwh := lookupTs inj t
        pv_kwh := lookupTs pv t
        BELPEX := none
        PVGIS_kwh := none })

/-- Lines 223–230: left join the Belpex hourly series on the
floored-to-hour timestamp; skipped entirely (no `BELPEX` column) when
the Belpex frame failed to load or is empty.  A loaded Belpex price
cell may itself be `NaN`, hence the `Option ℚ` payload. -/
def belpexStep (rows : List URow) (belpex : List (DateTime × Option ℚ)) : List URow :=
  if belpex.isEmpty then rows
  else
    rows.map (fun r =>
      { r with BELPEX :=
          (List.find? (fun p => decide (p.1 = floorHour r.date)) belpex).bind Prod.snd })

/-- Lines 231–234: create every missing column among `import_kwh`,
`injection_kwh`, `pv_kwh`, `BELPEX` as the constant 0 and then
`fillna(0)` the frame; the `PVGIS_kwh` column does not exist yet and is
untouched. -/
def fillnaStep (rows : List URow) : List URow :=
  rows.map (fun r =>
    { r with
      import_kwh := some (r.import_kwh.getD 0)
      injection_kwh := some (r.injection_kwh.getD 0)
      pv_kwh := some (r.pv_kwh.getD 0)
      BELPEX := some (r.BELPEX.getD 0) })

/-- Total sort key of a timestamp (lexicographic on the calendar
fields), for `sort_values('Date')` at line 235. -/
def dtKey (t : DateTime) : ℕ :=
  (((t.year * 100 + t.month) * 100 + t.day) * 100 + t.hour) * 100 + t.minute

def insertSorted (r : URow) : List URow → List URow
  | [] => [r]
  | x :: xs =>
      if dtKey r.date ≤ dtKey x.date then r :: x :: xs else x :: insertSorted r xs

/-- `finale_df.sort_values('Date')` (line 235) as an insertion sort. -/
def sortStep (rows : List URow) : List URow :=
  rows.foldr insertSorted []

/-- Lines 246–250: when a non-empty PVGIS estimate frame exists, left
join it on the year-agnostic `%m-%d %H:%M` match key and `fillna(0)`
the new `PVGIS_kwh` column; otherwise the column is never created. -/
def pvgisStep (rows : List URow) (pvgis : Series) : List URow :=
  if pvgis.isEmpty then rows
  else rows.map (fun r => { r with PVGIS_kwh := some ((pvgisJoinValue pvgis r.date).getD 0) })

/-- The merge pipeline of the top-level button handler (src/app.py
lines 212–252): `none` models the `st.error` at line 218 when every
meter slot is empty (nothing is produced at all). -/
def combinePipeline (imp inj pv : Series) (belpex : List (DateTime × Option ℚ))
    (pvgis : Series) : Option (List URow) :=
  if imp.isEmpty ∧ inj.isEmpty ∧ pv.isEmpty then none
  else
    some (pvgisStep (sortStep (fillnaStep (belpexStep (mergeStep imp inj pv) belpex))) pvgis)

theorem mem_insertSorted (r x : URow) (l : List URow) :
    x ∈ insertSorted r l ↔ x = r ∨ x ∈ l := by
  induction l with
  | nil => simp [insertSorted]
  | cons a l ih =>
    unfold insertSorted
    by_cases h : dtKey r.date ≤ dtKey a.date
    · simp [h]
    · simp [h, ih]
      tauto

theorem mem_sortStep (x : URow) (l : List URow) : x ∈ sortStep l ↔ x ∈ l := by
  induction l with
  | nil => simp [sortStep]
  | cons a l ih =>
    unfold sortStep at ih ⊢
    rw [List.foldr_cons, mem_insertSorted, ih]
    simp

theorem mem_belpex_merge (imp inj pv : Series) (belpex : List (DateTime × Option ℚ))
    (r : URow) (hr : r ∈ belpexStep (mergeStep imp inj pv) belpex) :
    r.import_kwh = lookupTs imp r.date ∧
      r.injection_kwh = lookupTs inj r.date ∧
      r.pv_kwh = lookupTs pv r.date ∧
      r.PVGIS_kwh = none ∧
      (belpex.isEmpty = true → r.BELPEX = none) := by
  unfold belpexStep at hr
  by_cases hb : belpex.isEmpty = true
  · rw [if_pos hb] at hr
    unfold mergeStep at hr
    rw [List.mem_map] at hr
    obtain ⟨t, ht, rfl⟩ := hr
    exact ⟨rfl, rfl, rfl, rfl, fun _ => rfl⟩
  · rw [if_neg hb] at hr
    rw [List.mem_map] at hr
    obtain ⟨r0, hr0, rfl⟩ := hr
    unfold mergeStep at hr0
    rw [List.mem_map] at hr0
    obtain ⟨t, ht, rfl⟩ := hr0
    exact ⟨rfl, rfl, rfl, rfl, fun hc => absurd hc hb⟩

/-- Counterexample to claim C1 as stated: with one import sample and no
PV-estimate data, the merge result's row has the four meter/price cells
defined and zero-filled but **no** `PVGIS_kwh` value at all — the
column is never created, so not every row has a defined numeric value
in all five columns. -/
theorem C1_counterexample :
    combinePipeline [(⟨2023, 1, 1, 0, 0⟩, 1)] [] [] [] [] =
      some [⟨⟨2023, 1, 1, 0, 0⟩, some 1, some 0, some 0, some 0, none⟩] ∧
      (⟨⟨2023, 1, 1, 0, 0⟩, some 1, some 0, some 0, some 0, none⟩ : URow).PVGIS_kwh.isSome
        = false := by
  constructor
  · decide
  · rfl

/-- Claim C1, amended: after the merge step, for every input combination
(any non-empty subset of meter series, with or without price and
PV-estimate data), every row has a defined value in the four columns
named import_kwh, injection_kwh, pv_kwh and BELPEX, each equal to 0
when its source is absent; the PVGIS_kwh column is present (zero-filled where
unmatched) exactly when a non-empty PV-estimate series was supplied,
and absent from the table otherwise. -/
theorem C1_zero_fill (imp inj pv : Series) (belpex : List (DateTime × Option ℚ))
    (pvgis : Series) (hne : imp ≠ [] ∨ inj ≠ [] ∨ pv ≠ []) :
    ∃ rows, combinePipeline imp inj pv belpex pvgis = some rows ∧
      ∀ r ∈ rows,
        r.import_kwh.isSome ∧ r.injection_kwh.isSome ∧ r.pv_kwh.isSome ∧ r.BELPEX.isSome ∧
          (imp = [] → r.import_kwh = some 0) ∧
          (inj = [] → r.injection_kwh = some 0) ∧
          (pv = [] → r.pv_kwh = some 0) ∧
          (belpex = [] → r.BELPEX = some 0) ∧
          (pvgis = [] → r.PVGIS_kwh = none) ∧
          (pvgis ≠ [] → r.PVGIS_kwh.isSome) := by
  unfold combinePipeline
  rw [if_neg (by simp only [List.isEmpty_iff]; tauto)]
  refine ⟨_, rfl, ?_⟩
  intro r hr
  unfold pvgisStep at hr
  by_cases hp : pvgis.isEmpty = true
  · rw [if_pos hp] at hr
    rw [mem_sortStep] at hr
    unfold fillnaStep at hr
    rw [List.mem_map] at hr
    obtain ⟨r0, hr0, rfl⟩ := hr
    obtain ⟨e1, e2, e3, e4, e5⟩ := mem_belpex_merge imp inj pv belpex r0 hr0
    refine ⟨rfl, rfl, rfl, rfl, ?_, ?_, ?_, ?_, ?_, ?_⟩
    · intro h
      simp only [e1, h, lookupTs, List.find?_nil, Option.map_none, Option.getD_none]
      rfl
    · intro h
      simp only [e2, h, lookupTs, List.find?_nil, Option.map_none, Option.getD_none]
      rfl
    · intro h
      simp only [e3, h, lookupTs, List.find?_nil, Option.map_none, Option.getD_none]
      rfl
    · intro h
      have he := e5 (by simp [h])
      simp only [he, Option.getD_none]
    · intro _
      exact e4
    · intro h
      exact absurd (List.isEmpty_iff.mp hp) h
  · rw [if_neg hp] at hr
    rw [List.mem_map] at hr
    obtain ⟨r1, hr1, rfl⟩ := hr
    rw [mem_sortStep] at hr1
    unfold fillnaStep at hr1
    rw [List.mem_map] at hr1
    obtain ⟨r0, hr0, rfl⟩ := hr1
    obtain ⟨e1, e2, e3, e4, e5⟩ := mem_belpex_merge imp inj pv belpex r0 hr0
    refine ⟨rfl, rfl, rfl, rfl, ?_, ?_, ?_, ?_, ?_, ?_⟩
    · intro h
      simp only [e1, h, lookupTs, List.find?_nil, Option.map_none, Option.getD_none]
      rfl
    · intro h
      simp only [e2, h, lookupTs, List.find?_nil, Option.map_none, Option.getD_none]
      rfl
    · intro h
      simp only [e3, h, lookupTs, List.find?_nil, Option.map_none, Option.getD_none]
      rfl
    · intro h
      have he := e5 (by simp [h])
      simp only [he, Option.getD_none]
    · intro h
      exact absurd h (by simpa using hp)
    · intro _
      rfl

/-- Witness for C1 at a concrete input: one import sample, no other
meter series, no price data, one PV-estimate sample — every resulting
row has all five cells defined. -/
theorem C1_zero_fill_witness :
    ∃ rows, combinePipeline [(⟨2023, 1, 1, 0, 0⟩, 1)] [] [] []
        [(⟨2020, 6, 1, 0, 0⟩, 2)] = some rows ∧
      ∀ r ∈ rows, r.import_kwh.isSome ∧ r.injection_kwh.isSome ∧ r.pv_kwh.isSome ∧
        r.BELPEX.isSome ∧ r.PVGIS_kwh.isSome := by
  obtain ⟨rows, h1, h2⟩ := C1_zero_fill [(⟨2023, 1, 1, 0, 0⟩, 1)] [] [] []
    [(⟨2020, 6, 1, 0, 0⟩, 2)] (Or.inl (by simp))
  refine ⟨rows, h1, fun r hr => ?_⟩
  obtain ⟨a1, a2, a3, a4, -, -, -, -, -, a5⟩ := h2 r hr
  exact ⟨a1, a2, a3, a4, a5 (by simp)⟩

/-- Gregorian month length, for the end-timestamp computation
(`Date + pd.Timedelta(minutes=15)`) of the split export. -/
def daysInMonth (y m : ℕ) : ℕ :=
  if m = 2 then (if (y % 4 = 0 ∧ y % 100 ≠ 0) ∨ y % 400 = 0 then 29 else 28)
  else if m = 4 ∨ m = 6 ∨ m = 9 ∨ m = 11 then 30 else 31

/-- `Date + pd.Timedelta(minutes=15)` (src/app.py line 138) with
calendar rollover. -/
def addMinutes15 (t : DateTime) : DateTime :=
  if t.minute + 15 < 60 then { t with minute := t.minute + 15 }
  else if t.hour + 1 < 24 then { t with hour := t.hour + 1, minute := t.minute + 15 - 60 }
  else if t.day + 1 ≤ daysInMonth t.year t.month then
    { t with day := t.day + 1, hour := 0, minute := t.minute + 15 - 60 }
  else if t.month + 1 ≤ 12 then
    { t with month := t.month + 1, day := 1, hour := 0, minute := t.minute + 15 - 60 }
  else
    ⟨t.year + 1, 1, 1, 0, t.minute + 15 - 60⟩

/-- Four-digit zero-padded year, as `strftime('%Y')` prints years in
range. -/
def fmt4 (n : ℕ) : List Char :=
  [Nat.digitChar (n / 1000 % 10), Nat.digitChar (n / 100 % 10),
   Nat.digitChar (n / 10 % 10), Nat.digitChar (n % 10)]

/-- `strftime('%d/%m/%Y')` (src/app.py line 136). -/
def fmtDate (t : DateTime) : String :=
  String.mk (fmt2 t.day ++ '/' :: fmt2 t.month ++ '/' :: fmt4 t.year)

/-- `strftime('%H:%M:%S')` (src/app.py line 137); seconds are always
zero in this embedding. -/
def fmtTime (t : DateTime) : String :=
  String.mk (fmt2 t.hour ++ ':' :: fmt2 t.minute ++ [':', '0', '0'])

/-- One output row of a split-export sheet (src/app.py lines 135–146):
start and end date/time strings, the quantity value, the fixed unit
label and the register name.  The decimal-comma string rendering of the
volume (`str(x).replace('.', ',')`, line 142) is kept as the rational
value itself; only its textual formatting is not modelled. -/
structure SheetRow where
  vanDatum : String
  vanTijd : String
  totDatum : String
  totTijd : String
  volume : ℚ
  eenheid : String
  register : String
deriving DecidableEq, Repr

/-- The date-range-filtered unified table as `to_multi_sheet_excel`
receives it: the `Date` column plus whichever quantity columns exist
(association list of column name to cells, in row order). -/
structure FilteredTable where
  dates : List DateTime
  columns : List (String × List ℚ)
deriving DecidableEq, Repr

/-- Column access with presence test (`kwh_column_name not in
data_df.columns`, src/app.py line 133). -/
def getColumn (t : FilteredTable) (name : String) : Option (List ℚ) :=
  (List.find? (fun c => decide (c.1 = name)) t.columns).map Prod.snd

/-- `transform_for_new_format` (src/app.py lines 132–146): `none` when
the quantity column is absent or sums to exactly zero over the filtered
range; otherwise the sheet rows in the original standard-meter-file
shape. -/
def transform_for_new_format (t : FilteredTable) (kwh_column_name register_name : String) :
    Option (List SheetRow) :=
  match getColumn t kwh_column_name with
  | none => none
  | some vals =>
      if vals.sum = 0 then none
      else
        some ((t.dates.zip vals).map (fun p =>
          { vanDatum := fmtDate p.1
            vanTijd := fmtTime p.1
            totDatum := fmtDate (addMinutes15 p.1)
            totTijd := fmtTime (addMinutes15 p.1)
            volume := p.2
            eenheid := "KWH"
            register := register_name }))

/-- `if sheet is not None: sheet.to_excel(...)` — a produced sheet is
appended to the workbook under its name, an omitted one contributes
nothing (src/app.py lines 147–154). -/
def sheetOpt (name : String) (o : Option (List SheetRow)) : List (String × List SheetRow) :=
  match o with
  | some s => [(name, s)]
  | none => []

/-- `to_multi_sheet_excel` (src/app.py lines 129–155): the workbook as
the list of written sheets in order. -/
def to_multi_sheet_excel (t : FilteredTable) : List (String × List SheetRow) :=
  sheetOpt "Verbruik" (transform_for_new_format t "import_kwh" "afname actief") ++
    sheetOpt "Injectie" (transform_for_new_format t "injection_kwh" "injectie actief") ++
    sheetOpt "PV_kwh" (transform_for_new_format t "pv_kwh" "Hulpverbruik Actief") ++
    sheetOpt "PVGIS_kwh" (transform_for_new_format t "PVGIS_kwh" "PVGIS")

theorem mem_sheetOpt (nm nm' : String) (o : Option (List SheetRow)) (s : List SheetRow) :
    (nm, s) ∈ sheetOpt nm' o ↔ (nm = nm' ∧ o = some s) := by
  cases o with
  | none => simp [sheetOpt]
  | some a =>
    simp [sheetOpt]
    tauto

theorem transform_some_iff (t : FilteredTable) (col reg : String) :
    (∃ s, transform_for_new_format t col reg = some s) ↔
      (∃ vals, getColumn t col = some vals ∧ vals.sum ≠ 0) := by
  unfold transform_for_new_format
  cases h : getColumn t col with
  | none => simp
  | some vals =>
    by_cases hs : vals.sum = 0 <;> simp [hs]

theorem mem_tmse_iff (t : FilteredTable) (nm : String) (s : List SheetRow) :
    (nm, s) ∈ to_multi_sheet_excel t ↔
      ((nm = "Verbruik" ∧ transform_for_new_format t "import_kwh" "afname actief" = some s) ∨
        (nm = "Injectie" ∧ transform_for_new_format t "injection_kwh" "injectie actief" = some s) ∨
        (nm = "PV_kwh" ∧ transform_for_new_format t "pv_kwh" "Hulpverbruik Actief" = some s) ∨
        (nm = "PVGIS_kwh" ∧ transform_for_new_format t "PVGIS_kwh" "PVGIS" = some s)) := by
  unfold to_multi_sheet_excel
  simp only [List.mem_append, mem_sheetOpt]
  tauto

/-- Claim C9: in the split-layout export, for every quantity column
among import_kwh, injection_kwh, pv_kwh, PVGIS_kwh, a sheet is produced
if and only if the column is present in the filtered table and its sum
over the filtered range is not exactly zero; a zero-sum or absent column
yields no sheet at all. -/
theorem C9_split_sheet_condition (t : FilteredTable) :
    ((∃ s, ("Verbruik", s) ∈ to_multi_sheet_excel t) ↔
      (∃ vals, getColumn t "import_kwh" = some vals ∧ vals.sum ≠ 0)) ∧
      ((∃ s, ("Injectie", s) ∈ to_multi_sheet_excel t) ↔
        (∃ vals, getColumn t "injection_kwh" = some vals ∧ vals.sum ≠ 0)) ∧
      ((∃ s, ("PV_kwh", s) ∈ to_multi_sheet_excel t) ↔
        (∃ vals, getColumn t "pv_kwh" = some vals ∧ vals.sum ≠ 0)) ∧
      ((∃ s, ("PVGIS_kwh", s) ∈ to_multi_sheet_excel t) ↔
        (∃ vals, getColumn t "PVGIS_kwh" = some vals ∧ vals.sum ≠ 0)) := by
  refine ⟨?_, ?_, ?_, ?_⟩
  · constructor
    · rintro ⟨s, hs⟩
      rw [mem_tmse_iff] at hs
      rcases hs with (⟨-, h⟩ | ⟨hn, -⟩ | ⟨hn, -⟩ | ⟨hn, -⟩)
      · exact (transform_some_iff t _ _).mp ⟨s, h⟩
      · exact absurd hn (by decide)
      · exact absurd hn (by decide)
      · exact absurd hn (by decide)
    · intro hv
      obtain ⟨s, hs⟩ := (transform_some_iff t "import_kwh" "afname actief").mpr hv
      exact ⟨s, (mem_tmse_iff t _ s).mpr (Or.inl ⟨rfl, hs⟩)⟩
  · constructor
    · rintro ⟨s, hs⟩
      rw [mem_tmse_iff] at hs
      rcases hs with (⟨hn, -⟩ | ⟨-, h⟩ | ⟨hn, -⟩ | ⟨hn, -⟩)
      · exact absurd hn (by decide)
      · exact (transform_some_iff t _ _).mp ⟨s, h⟩
      · exact absurd hn (by decide)
      · exact absurd hn (by decide)
    · intro hv
      obtain ⟨s, hs⟩ := (transform_some_iff t "injection_kwh" "injectie actief").mpr hv
      exact ⟨s, (mem_tmse_iff t _ s).mpr (Or.inr (Or.inl ⟨rfl, hs⟩))⟩
  · constructor
    · rintro ⟨s, hs⟩
      rw [mem_tmse_iff] at hs
      rcases hs with (⟨hn, -⟩ | ⟨hn, -⟩ | ⟨-, h⟩ | ⟨hn, -⟩)
      · exact absurd hn (by decide)
      · exact absurd hn (by decide)
      · exact (transform_some_iff t _ _).mp ⟨s, h⟩
      · exact absurd hn (by decide)
    · intro hv
      obtain ⟨s, hs⟩ := (transform_some_iff t "pv_kwh" "Hulpverbruik Actief").mpr hv
      exact ⟨s, (mem_tmse_iff t _ s).mpr (Or.inr (Or.inr (Or.inl ⟨rfl, hs⟩)))⟩
  · constructor
    · rintro ⟨s, hs⟩
      rw [mem_tmse_iff] at hs
      rcases hs with (⟨hn, -⟩ | ⟨hn, -⟩ | ⟨hn, -⟩ | ⟨-, h⟩)
      · exact absurd hn (by decide)
      · exact absurd hn (by decide)
      · exact absurd hn (by decide)
      · exact (transform_some_iff t _ _).mp ⟨s, h⟩
    · intro hv
      obtain ⟨s, hs⟩ := (transform_some_iff t "PVGIS_kwh" "PVGIS").mpr hv
      exact ⟨s, (mem_tmse_iff t _ s).mpr (Or.inr (Or.inr (Or.inr ⟨rfl, hs⟩)))⟩

/-- Witness for C9 at a concrete filtered table holding a non-zero-sum
column named import_kwh and a zero-sum PVGIS column: the Verbruik sheet
is produced and the PVGIS_kwh sheet is not. -/
theorem C9_split_sheet_condition_witness :
    (∃ s, ("Verbruik", s) ∈ to_multi_sheet_excel
      ⟨[⟨2023, 1, 1, 0, 0⟩], [("import_kwh", [1]), ("PVGIS_kwh", [0])]⟩) ∧
      ¬ (∃ s, ("PVGIS_kwh", s) ∈ to_multi_sheet_excel
        ⟨[⟨2023, 1, 1, 0, 0⟩], [("import_kwh", [1]), ("PVGIS_kwh", [0])]⟩) := by
  constructor
  · refine (C9_split_sheet_condition
      ⟨[⟨2023, 1, 1, 0, 0⟩], [("import_kwh", [1]), ("PVGIS_kwh", [0])]⟩).1.mpr ⟨[1], ?_, ?_⟩
    · decide
    · norm_num
  · intro h
    obtain ⟨vals, hv, hsum⟩ := (C9_split_sheet_condition
      ⟨[⟨2023, 1, 1, 0, 0⟩], [("import_kwh", [1]), ("PVGIS_kwh", [0])]⟩).2.2.2.mp h
    have h0 : getColumn ⟨[⟨2023, 1, 1, 0, 0⟩], [("import_kwh", [1]), ("PVGIS_kwh", [0])]⟩
        "PVGIS_kwh" = some [0] := by decide
    rw [h0] at hv
    obtain rfl := Option.some.inj hv
    exact hsum (by norm_num)
